import Mathlib

/-!
Verification of the plate-imaging coordination backend: a shallow embedding of
the read scheduler (app/scheduler/flows.py), the artifact-collection lifecycle
manager (app/acquisition/flows/artifact_collections.py, app/acquisition/crud.py),
the acquisition-plan materializer (app/acquisition/flows/acquisition_planning.py)
and the analysis trigger/reconciliation engine (app/acquisition/flows/analysis.py).

Datetimes and timedeltas are embedded as integers (seconds).  Database tables
are embedded as Lean lists of rows; the external filesystem and the external
batch executor are embedded as explicit state and oracles, so that every
function is executable and every run deterministic.
-/

/-- Status of a plateread, from ProcessStatus in app/acquisition/models.py. -/
inductive ProcessStatus where
  | PENDING
  | SCHEDULED
  | RUNNING
  | COMPLETED
  | CANCELLED
  | ABORTED
  | RESET
deriving DecidableEq, Repr

/-- ProcessStatus.is_endstate from app/acquisition/models.py. -/
def ProcessStatus.is_endstate (s : ProcessStatus) : Bool :=
  s == .COMPLETED || s == .CANCELLED || s == .ABORTED

/-- ImagingPriority from app/acquisition/models.py. -/
inductive ImagingPriority where
  | NORMAL
  | LOW
deriving DecidableEq, Repr

/-- Location from app/labware/models.py: physical locations a wellplate can be at. -/
inductive Location where
  | CQ1
  | KX2
  | CYTOMAT2
  | HOTEL
  | EXTERNAL
deriving DecidableEq, Repr

/-- Repository from app/acquisition/models.py: the three storage tiers. -/
inductive Repository where
  | ACQUISITION_STORE
  | ARCHIVE_STORE
  | ANALYSIS_STORE
deriving DecidableEq, Repr

/-- ArtifactType from app/acquisition/models.py. -/
inductive ArtifactType where
  | ACQUISITION_DATA
  | ANALYSIS_DATA
deriving DecidableEq, Repr

/-- AnalysisTrigger from app/acquisition/models.py. -/
inductive AnalysisTrigger where
  | END_OF_RUN
  | POST_READ
  | IMMEDIATE
deriving DecidableEq, Repr

/--
One row of the join used by the scheduler (app/scheduler/flows.py):
a PlatereadSpec together with the columns of its AcquisitionPlan and of the
plan's Wellplate that the scheduler queries read (priority, the plan's
storage_location, and the wellplate's current location).  Times are seconds.
-/
structure SchedRow where
  status : ProcessStatus
  startAfter : Int
  deadline : Option Int
  priority : ImagingPriority
  storageLocation : Location
  plateLocation : Location
deriving DecidableEq, Repr

/-- The WHERE clause of the UPDATE in cancel_past_deadline
(app/scheduler/flows.py): deadline is less than now; a NULL deadline never
satisfies the SQL comparison. -/
def deadline_past (now : Int) (r : SchedRow) : Bool :=
  match r.deadline with
  | some d => decide (d < now)
  | none => false

/-- Effect of the cancel_past_deadline UPDATE on a single row: any row whose
deadline has passed gets status CANCELLED; the statement has no status filter. -/
def cancel_one (now : Int) (r : SchedRow) : SchedRow :=
  if deadline_past now r then { r with status := .CANCELLED } else r

/-- cancel_past_deadline from app/scheduler/flows.py, applied to the whole
table of plateread rows. -/
def cancel_past_deadline (now : Int) (reads : List SchedRow) : List SchedRow :=
  reads.map (cancel_one now)

/-- any_platereads_running from app/scheduler/flows.py. -/
def any_platereads_running (reads : List SchedRow) : Bool :=
  reads.any (fun r => r.status == .RUNNING)

/-- The WHERE clauses of get_next_task (app/scheduler/flows.py): status is
PENDING, start_after is before the bound, the plan has the requested priority,
and the wellplate's location equals the plan's storage location. -/
def is_candidate (before : Int) (p : ImagingPriority) (r : SchedRow) : Bool :=
  r.status == .PENDING && decide (r.startAfter < before) &&
    r.priority == p && r.plateLocation == r.storageLocation

/-- Accumulator step realizing ORDER BY start_after ASC LIMIT 1 of
get_next_task: keep the candidate row with the smallest start_after,
preferring the earlier row of the table on ties. -/
def pickBetter (before : Int) (p : ImagingPriority)
    (acc : Option SchedRow) (r : SchedRow) : Option SchedRow :=
  if is_candidate before p r then
    match acc with
    | none => some r
    | some b => if r.startAfter < b.startAfter then some r else some b
  else acc

/-- get_next_task from app/scheduler/flows.py: the PENDING, co-located read of
the requested priority with the smallest start_after below the bound, if any. -/
def get_next_task (reads : List SchedRow) (before : Int) (p : ImagingPriority) :
    Option SchedRow :=
  reads.foldl (pickBetter before p) none

/-- submit_plateread_spec from app/acquisition/flows/overlord.py, restricted to
its database effect: writing the batch file for the instrument and then setting
the dispatched read's status to SCHEDULED. -/
def submit_plateread_spec (reads : List SchedRow) (r : SchedRow) : List SchedRow :=
  reads.replace r { r with status := .SCHEDULED }

/-- The slack window of get_future_normal_prio (app/scheduler/flows.py):
timedelta(hours=6), in seconds. -/
def SLACK : Int := 6 * 3600

/-- The schedule flow from app/scheduler/flows.py: cancel overdue reads, stop
if anything is RUNNING, else dispatch the earliest due NORMAL read, else hold
off while a NORMAL read is due within the slack window, else dispatch the
earliest due LOW read. -/
def schedule (now : Int) (reads : List SchedRow) : List SchedRow :=
  let rs := cancel_past_deadline now reads
  if any_platereads_running rs then rs
  else
    match get_next_task rs now .NORMAL with
    | some r => submit_plateread_spec rs r
    | none =>
      match get_next_task rs (now + SLACK) .NORMAL with
      | some _ => rs
      | none =>
        match get_next_task rs now .LOW with
        | some r => submit_plateread_spec rs r
        | none => rs

/-- An AcquisitionPlan row, restricted to the columns implement_plan reads
(app/acquisition/models.py): number of reads, read interval, and the optional
deadline offset.  Times are seconds. -/
structure AcquisitionPlan where
  nReads : Nat
  interval : Int
  deadlineDelta : Option Int
deriving DecidableEq, Repr

/-- A PlatereadSpec row as created by implement_plan
(app/acquisition/models.py): start_after, deadline, status. -/
structure PlatereadSpec where
  startAfter : Int
  deadline : Option Int
  status : ProcessStatus
deriving DecidableEq, Repr

/-- timedelta(days=9999) in seconds, the fallback deadline of implement_plan. -/
def DAYS9999 : Int := 9999 * 86400

/-- implement_plan from app/acquisition/flows/acquisition_planning.py: create
one PlatereadSpec per read, with start_after spaced by the plan interval.  The
deadline is start_after plus the plan's deadline_delta when that delta is
present and nonzero (Python truthiness of a timedelta), and start_after plus
9999 days otherwise; the status field takes its model default PENDING. -/
def implement_plan (plan : AcquisitionPlan) (start_time : Int) : List PlatereadSpec :=
  (List.range plan.nReads).map (fun (i : Nat) =>
    let start_after := start_time + (i : Int) * plan.interval
    let deadline :=
      match plan.deadlineDelta with
      | some d => if d = 0 then start_after + DAYS9999 else start_after + d
      | none => start_after + DAYS9999
    { startAfter := start_after, deadline := some deadline, status := .PENDING })

/-- An ArtifactCollection row from app/acquisition/models.py, restricted to its
unique key (acquisition_id, artifact_type, location); the timestamp columns
play no role in the verified flows. -/
structure ArtifactCollection where
  acquisitionId : Nat
  artifactType : ArtifactType
  location : Repository
deriving DecidableEq, Repr

/--
State touched by the artifact-collection flows: the artifactcollection table,
and the filesystem abstracted as the set of (acquisition, artifact type, tier)
triples whose backing data is present at that tier.  A filesystem transfer of a
collection to a destination tier makes the triple for the destination present;
cleanup of a collection removes its triple.
-/
structure CollectionStore where
  collections : List ArtifactCollection
  files : List ArtifactCollection
deriving DecidableEq, Repr

/-- Errors raised by the artifact-collection flows: the duplicate-location
ValueError of copy_collection, a non-zero exit of a transfer subprocess, and
the duplicate-collection ValueError of create_artifact_collection_copy. -/
inductive CopyError where
  | duplicateLocation
  | transferError
  | duplicateCollection
deriving DecidableEq, Repr

/-- get_artifact_collection_by_key from app/acquisition/crud.py. -/
def get_artifact_collection_by_key (st : CollectionStore) (acqId : Nat)
    (loc : Repository) (ty : ArtifactType) : Option ArtifactCollection :=
  st.collections.find? (fun a =>
    a.acquisitionId == acqId && a.location == loc && a.artifactType == ty)

/-- create_artifact_collection_copy from app/acquisition/crud.py: refuse when
the source already sits at the destination or when ANY collection of the same
acquisition (of any artifact type) sits at the destination, else insert the
copied row. -/
def create_artifact_collection_copy (st : CollectionStore)
    (c : ArtifactCollection) (loc : Repository) :
    CollectionStore × Except CopyError ArtifactCollection :=
  let others := st.collections.filter (fun a => a.acquisitionId == c.acquisitionId)
  if c.location == loc || others.any (fun a => a.location == loc) then
    (st, .error .duplicateCollection)
  else
    let row : ArtifactCollection :=
      { acquisitionId := c.acquisitionId, artifactType := c.artifactType, location := loc }
    ({ st with collections := st.collections ++ [row] }, .ok row)

/-- One filesystem transfer of a collection's data to a destination tier, as
run by the _retrieve, _archive and _sync tasks of
app/acquisition/flows/artifact_collections.py (they differ only in the
external command).  The transferOk oracle tells whether the subprocess
succeeds; on failure the task raises and the filesystem gains nothing. -/
def run_transfer (st : CollectionStore) (c : ArtifactCollection)
    (dest : Repository) (transferOk : Bool) :
    Except CopyError CollectionStore :=
  if transferOk then
    .ok { st with files :=
      { acquisitionId := c.acquisitionId, artifactType := c.artifactType,
        location := dest } :: st.files }
  else
    .error .transferError

/-- copy_collection from app/acquisition/flows/artifact_collections.py.
The match mirrors the source: a collection at the archive tier is retrieved
(whatever the destination), a copy to the archive tier is archived, and only
the remaining case rejects a same-tier copy before syncing.  Only after the
transfer has succeeded is the destination row looked up and, if absent,
created. -/
def copy_collection (st : CollectionStore) (c : ArtifactCollection)
    (dest : Repository) (transferOk : Bool) :
    CollectionStore × Except CopyError ArtifactCollection :=
  let transferred : Except CopyError CollectionStore :=
    match c.location, dest with
    | .ARCHIVE_STORE, _ => run_transfer st c dest transferOk
    | _, .ARCHIVE_STORE => run_transfer st c dest transferOk
    | _, _ =>
      if c.location == dest then .error .duplicateLocation
      else run_transfer st c dest transferOk
  match transferred with
  | .error e => (st, .error e)
  | .ok st1 =>
    match get_artifact_collection_by_key st1 c.acquisitionId dest c.artifactType with
    | some row => (st1, .ok row)
    | none => create_artifact_collection_copy st1 c dest

/-- cleanup from app/acquisition/flows/artifact_collections.py: remove the
collection's backing data from the filesystem, then delete its row. -/
def cleanup (st : CollectionStore) (c : ArtifactCollection) : CollectionStore :=
  { collections := st.collections.filter (fun a => a != c)
  , files := st.files.filter (fun a => a != c) }

/-- move_collection from app/acquisition/flows/artifact_collections.py:
copy, then clean up the source; cleanup runs only when copy_collection
returned normally. -/
def move_collection (st : CollectionStore) (c : ArtifactCollection)
    (dest : Repository) (transferOk : Bool) :
    CollectionStore × Except CopyError ArtifactCollection :=
  match copy_collection st c dest transferOk with
  | (st1, .error e) => (st1, .error e)
  | (st1, .ok nc) => (cleanup st1 c, .ok nc)

/-- An SBatchAnalysisSpec row from app/acquisition/models.py, restricted to
the fields the trigger decision reads: the trigger kind, its optional value,
and the jobs bound to the spec (as the slurm ids of its SBatchJob rows); the
command and argument columns are opaque to the decision. -/
structure SBatchAnalysisSpec where
  trigger : AnalysisTrigger
  triggerValue : Option Int
  jobs : List Nat
deriving DecidableEq, Repr

/-- The read progress of an acquisition plan as handle_analyses consumes it:
the plan's n_reads column and the statuses of its materialized reads. -/
structure ReadProgress where
  nReads : Nat
  reads : List ProcessStatus
deriving DecidableEq, Repr

/-- An Acquisition as the analysis handlers see it: an optional analysis plan
(its list of sbatch analysis specs), an optional acquisition plan, and the
acquisition's artifact collections.  The handlers in
app/acquisition/flows/analysis.py never read the collections. -/
structure Acquisition where
  analysisPlan : Option (List SBatchAnalysisSpec)
  acquisitionPlan : Option ReadProgress
  collections : List ArtifactCollection
deriving DecidableEq, Repr

/-- Count of COMPLETED reads (n_complete in handle_analyses). -/
def n_complete (p : ReadProgress) : Nat :=
  p.reads.countP (fun r => r == .COMPLETED)

/-- Count of endstate reads (n_end_states in handle_analyses). -/
def n_end_states (p : ReadProgress) : Nat :=
  p.reads.countP (fun r => r.is_endstate)

/-- Whether one evaluation of handle_analyses submits the given spec,
combining the three handlers of app/acquisition/flows/analysis.py:
handle_immediate_analyses submits an IMMEDIATE spec iff no job is bound to it;
handle_post_read_analyses runs only when n_complete is positive and submits a
POST_READ spec iff its trigger_value equals n_complete; handle_end_of_run
submits an END_OF_RUN spec iff the endstate count equals the plan's n_reads.
The latter two run only when the acquisition has an acquisition plan. -/
def submits (a : Acquisition) (s : SBatchAnalysisSpec) : Bool :=
  match s.trigger with
  | .IMMEDIATE => s.jobs.isEmpty
  | .POST_READ =>
    match a.acquisitionPlan with
    | some p => decide (0 < n_complete p) && s.triggerValue == some (n_complete p : Int)
    | none => false
  | .END_OF_RUN =>
    match a.acquisitionPlan with
    | some p => n_end_states p == p.nReads
    | none => false

/-- handle_analyses from app/acquisition/flows/analysis.py, evaluated to the
list of specs it submits in one evaluation; with no analysis plan every
handler returns early. -/
def handle_analyses (a : Acquisition) : List SBatchAnalysisSpec :=
  match a.analysisPlan with
  | some specs => specs.filter (submits a)
  | none => []

/-- The state transition of one handle_analyses evaluation: every submitted
spec gains the SBatchJob row that submit_sbatch_analysis creates for it (the
slurm id returned by the executor, embedded as 0 since no handler inspects
it); reads and collections are untouched. -/
def step_analyses (a : Acquisition) : Acquisition :=
  { a with analysisPlan := a.analysisPlan.map (fun specs =>
      specs.map (fun s => if submits a s then { s with jobs := s.jobs ++ [0] } else s)) }

/-- Modelled from the spec: SlurmJobState, the closed set of job states the
reconciliation loop handles.  The enum's declaration is not under src/ (only
its uses in app/acquisition/flows/analysis.py are); its values are the spec's
job-state list PENDING/RUNNING/COMPLETED/FAILED/CANCELLED/PREEMPTED/SUSPENDED/
UNHANDLED. -/
inductive SlurmJobState where
  | PENDING
  | RUNNING
  | COMPLETED
  | FAILED
  | CANCELLED
  | PREEMPTED
  | SUSPENDED
  | UNHANDLED
deriving DecidableEq, Repr

/-- An SBatchJob row, restricted to the fields sync_analysis_jobs reads: the
opaque slurm id used to poll the executor, and the last written status. -/
structure SBatchJob where
  slurmId : Nat
  status : SlurmJobState
deriving DecidableEq, Repr

/-- The selection filter of sync_analysis_jobs: the four non-terminal statuses
it polls (the or_ clause of its query). -/
def is_active_job (s : SlurmJobState) : Bool :=
  s == .PENDING || s == .RUNNING || s == .PREEMPTED || s == .SUSPENDED

/--
sync_analysis_jobs from app/acquisition/flows/analysis.py.  The executor
is embedded by two oracles: statusOf gives the state parsed from the status
query for a slurm id, or none when get_job_status raises (non-zero exit or
unparseable output), and hookOk tells whether the on_job_complete ingestion
hook succeeds for that id.  Mirroring the source, jobs in a non-terminal
status are polled in table order; a parse failure propagates out of the flow
(nothing catches it), so the remaining jobs are left untouched; a hook failure
is caught, and the status is written back regardless.  The result is the job
table, the list of slurm ids successfully ingested, and whether the flow ran
to completion.
-/
def sync_analysis_jobs (jobs : List SBatchJob)
    (statusOf : Nat → Option SlurmJobState) (hookOk : Nat → Bool) :
    List SBatchJob × List Nat × Bool :=
  match jobs with
  | [] => ([], [], true)
  | j :: rest =>
    if is_active_job j.status then
      match statusOf j.slurmId with
      | none => (j :: rest, [], false)
      | some s =>
        let tail := sync_analysis_jobs rest statusOf hookOk
        let ingested :=
          if s == .COMPLETED && hookOk j.slurmId then j.slurmId :: tail.2.1 else tail.2.1
        ({ j with status := s } :: tail.1, ingested, tail.2.2)
    else
      let tail := sync_analysis_jobs rest statusOf hookOk
      (j :: tail.1, tail.2.1, tail.2.2)

/-- The per-job effect of one successful poll, used to state what a
reconciliation tick writes: an active job gets the parsed status (when one
parses), an inactive job is untouched. -/
def sync_one (statusOf : Nat → Option SlurmJobState) (j : SBatchJob) : SBatchJob :=
  if is_active_job j.status then
    match statusOf j.slurmId with
    | some s => { j with status := s }
    | none => j
  else j

/-- The slurm ids whose ingestion hook fires and succeeds during one tick over
the given jobs: active jobs whose polled status is COMPLETED and whose hook
runs without error. -/
def ingested_ids (jobs : List SBatchJob)
    (statusOf : Nat → Option SlurmJobState) (hookOk : Nat → Bool) : List Nat :=
  jobs.filterMap (fun j =>
    if is_active_job j.status then
      match statusOf j.slurmId with
      | some s => if s == .COMPLETED && hookOk j.slurmId then some j.slurmId else none
      | none => none
    else none)

/-- The destination row that a successful copy of a collection to a tier
creates or finds: same acquisition and artifact type, at the destination. -/
def dest_row (c : ArtifactCollection) (dest : Repository) : ArtifactCollection :=
  { acquisitionId := c.acquisitionId, artifactType := c.artifactType, location := dest }

/-- Claim C1, counterexample: cancel_past_deadline carries no status filter, so
a RUNNING read whose deadline has passed is set to CANCELLED, although the
claim says reads that are not PENDING keep their status. -/
theorem c1_counterexample :
    (cancel_past_deadline 100
      [{ status := .RUNNING, startAfter := 0, deadline := some 50,
         priority := .NORMAL, storageLocation := .CQ1, plateLocation := .CQ1 }])
      = [{ status := .CANCELLED, startAfter := 0, deadline := some 50,
           priority := .NORMAL, storageLocation := .CQ1, plateLocation := .CQ1 }] := by
  decide

/-- Claim C1 (amended): running CancelPastDeadline(now) sets status to
CANCELLED for exactly those reads whose deadline < now, regardless of their
prior status, and leaves every read whose deadline is unset or not yet passed
entirely unchanged; no read is added or removed. -/
theorem c1_cancel_amended (now : Int) (reads : List SchedRow) (i : Nat)
    (r : SchedRow) (h : reads[i]? = some r) :
    (cancel_past_deadline now reads).length = reads.length ∧
    (deadline_past now r = true →
      (cancel_past_deadline now reads)[i]? =
        some { r with status := .CANCELLED }) ∧
    (deadline_past now r = false →
      (cancel_past_deadline now reads)[i]? = some r) := by
  have key : (cancel_past_deadline now reads)[i]? = some (cancel_one now r) := by
    rw [cancel_past_deadline, List.getElem?_map, h]
    rfl
  refine ⟨List.length_map _ _, ?_, ?_⟩ <;> intro hd <;> rw [key] <;>
    simp [cancel_one, hd]

/-- Witness for c1_cancel_amended at a one-row table whose deadline passed. -/
theorem c1_cancel_amended_witness :
    (cancel_past_deadline 100
      [{ status := .COMPLETED, startAfter := 0, deadline := some 50,
         priority := .NORMAL, storageLocation := .CQ1, plateLocation := .CQ1 }])[0]?
      = some { status := .CANCELLED, startAfter := 0, deadline := some 50,
               priority := .NORMAL, storageLocation := .CQ1, plateLocation := .CQ1 } :=
  (c1_cancel_amended 100
    [{ status := .COMPLETED, startAfter := 0, deadline := some 50,
       priority := .NORMAL, storageLocation := .CQ1, plateLocation := .CQ1 }]
    0 _ rfl).2.1 (by decide)

/-- Claim C7, counterexample: a plan without a deadline offset still gets a
deadline, namely start_after plus 9999 days, not an unset deadline. -/
theorem c7_counterexample :
    implement_plan { nReads := 1, interval := 600, deadlineDelta := none } 0
      = [{ startAfter := 0, deadline := some 863913600, status := .PENDING }] := by
  decide

/-- Claim C7 (amended): materializing a plan with n reads, interval, and base
time creates exactly n reads, the i-th PENDING with start_after base plus i
times the interval; its deadline is start_after plus the deadline offset when
the plan carries a nonzero offset, and start_after plus 9999 days when the
offset is absent (never unset). -/
theorem c7_implement_plan_amended (plan : AcquisitionPlan) (base : Int)
    (i : Nat) (h : i < plan.nReads) :
    (implement_plan plan base).length = plan.nReads ∧
    (∀ r, (implement_plan plan base)[i]? = some r →
      r.status = .PENDING ∧ r.startAfter = base + (i : Int) * plan.interval) ∧
    (∀ d, plan.deadlineDelta = some d → d ≠ 0 →
      (implement_plan plan base)[i]? = some
        { startAfter := base + (i : Int) * plan.interval
        , deadline := some (base + (i : Int) * plan.interval + d)
        , status := .PENDING }) ∧
    (plan.deadlineDelta = none →
      (implement_plan plan base)[i]? = some
        { startAfter := base + (i : Int) * plan.interval
        , deadline := some (match plan.deadlineDelta with
            | some d => if d = 0 then base + (i : Int) * plan.interval + DAYS9999
                        else base + (i : Int) * plan.interval + d
            | none => base + (i : Int) * plan.interval + DAYS9999)
        , status := .PENDING }) := by
  have key : (implement_plan plan base)[i]? = some
      { startAfter := base + (i : Int) * plan.interval
      , deadline := some (match plan.deadlineDelta with
          | some d => if d = 0 then base + (i : Int) * plan.interval + DAYS9999
                      else base + (i : Int) * plan.interval + d
          | none => base + (i : Int) * plan.interval + DAYS9999)
      , status := .PENDING } := by
    rw [implement_plan, List.getElem?_map, List.getElem?_range h]
    rfl
  refine ⟨by simp [implement_plan], ?_, ?_, ?_⟩
  · intro r hrr
    rw [key] at hrr
    cases hrr
    exact ⟨rfl, rfl⟩
  · intro d hd hdz
    rw [key, hd]
    simp [hdz]
  · intro _
    exact key

/-- Witness for c7_implement_plan_amended at a two-read plan with a 10-minute
interval and no deadline offset. -/
theorem c7_implement_plan_amended_witness :
    (implement_plan { nReads := 2, interval := 600, deadlineDelta := none } 50)[1]?
      = some { startAfter := 650, deadline := some (650 + DAYS9999),
               status := .PENDING } := by
  have h := (c7_implement_plan_amended
    { nReads := 2, interval := 600, deadlineDelta := none } 50 1 (by decide)).2.2.2 rfl
  rw [h]
  decide

/-- On a failing transfer, copy_collection raises without touching the
database: every branch either rejects the same-tier copy up front or
propagates the transfer error, and the row stage is never reached. -/
theorem copy_collection_transfer_failed (st : CollectionStore)
    (c : ArtifactCollection) (dest : Repository) :
    ∃ e, copy_collection st c dest false = (st, .error e) := by
  rcases c with ⟨a, t, l⟩
  cases l <;> cases dest <;>
    first
      | exact ⟨.transferError, rfl⟩
      | exact ⟨.duplicateLocation, rfl⟩

/-- With a succeeding transfer and distinct source and destination tiers,
copy_collection first records the destination data on the filesystem and only
then looks up or creates the destination row. -/
theorem copy_collection_transfer_ok_ne (st : CollectionStore)
    (c : ArtifactCollection) (dest : Repository) (hne : c.location ≠ dest) :
    copy_collection st c dest true =
      (match get_artifact_collection_by_key
          { st with files := dest_row c dest :: st.files }
          c.acquisitionId dest c.artifactType with
       | some row => ({ st with files := dest_row c dest :: st.files }, .ok row)
       | none => create_artifact_collection_copy
          { st with files := dest_row c dest :: st.files } c dest) := by
  rcases c with ⟨a, t, l⟩
  simp only at hne
  cases l <;> cases dest <;> simp_all [copy_collection, run_transfer, dest_row]

/-- Claim C3: if the filesystem transfer performed by copy_collection fails,
the collections table is left exactly as it was, the call surfaces an error,
and in particular a destination row that was absent before the call is still
absent afterwards: the destination row is created only after the transfer has
succeeded. -/
theorem c3_no_row_after_failed_transfer (st : CollectionStore)
    (c : ArtifactCollection) (dest : Repository) :
    (copy_collection st c dest false).1.collections = st.collections ∧
    (∃ e, (copy_collection st c dest false).2 = .error e) ∧
    (get_artifact_collection_by_key st c.acquisitionId dest c.artifactType = none →
      get_artifact_collection_by_key (copy_collection st c dest false).1
        c.acquisitionId dest c.artifactType = none) := by
  obtain ⟨e, he⟩ := copy_collection_transfer_failed st c dest
  rw [he]
  exact ⟨rfl, ⟨e, rfl⟩, fun h => h⟩

/-- Witness for c3_no_row_after_failed_transfer: a failing copy of a hot-tier
collection towards the analysis tier leaves the single-row table unchanged and
the analysis-tier row absent. -/
theorem c3_no_row_after_failed_transfer_witness :
    (copy_collection
        { collections := [{ acquisitionId := 1, artifactType := .ACQUISITION_DATA,
                            location := .ACQUISITION_STORE }]
        , files := [{ acquisitionId := 1, artifactType := .ACQUISITION_DATA,
                      location := .ACQUISITION_STORE }] }
        { acquisitionId := 1, artifactType := .ACQUISITION_DATA,
          location := .ACQUISITION_STORE }
        .ANALYSIS_STORE false).1.collections
      = [{ acquisitionId := 1, artifactType := .ACQUISITION_DATA,
           location := .ACQUISITION_STORE }] ∧
    get_artifact_collection_by_key
      (copy_collection
        { collections := [{ acquisitionId := 1, artifactType := .ACQUISITION_DATA,
                            location := .ACQUISITION_STORE }]
        , files := [{ acquisitionId := 1, artifactType := .ACQUISITION_DATA,
                      location := .ACQUISITION_STORE }] }
        { acquisitionId := 1, artifactType := .ACQUISITION_DATA,
          location := .ACQUISITION_STORE }
        .ANALYSIS_STORE false).1 1 .ANALYSIS_STORE .ACQUISITION_DATA = none :=
  ⟨(c3_no_row_after_failed_transfer _ _ _).1,
   (c3_no_row_after_failed_transfer _ _ _).2.2 (by decide)⟩

/-- Claim C8, counterexample: copying an archive-tier collection with the
archive tier as destination does not fail with the duplicate-location error.
The first match arm of copy_collection catches the archive source before the
same-location check, so the call runs the retrieve transfer (the filesystem
gains a second triple) and then returns the existing archive row. -/
theorem c8_counterexample :
    copy_collection
      { collections := [{ acquisitionId := 1, artifactType := .ACQUISITION_DATA,
                          location := .ARCHIVE_STORE }]
      , files := [{ acquisitionId := 1, artifactType := .ACQUISITION_DATA,
                    location := .ARCHIVE_STORE }] }
      { acquisitionId := 1, artifactType := .ACQUISITION_DATA,
        location := .ARCHIVE_STORE }
      .ARCHIVE_STORE true
    = ({ collections := [{ acquisitionId := 1, artifactType := .ACQUISITION_DATA,
                           location := .ARCHIVE_STORE }]
       , files := [{ acquisitionId := 1, artifactType := .ACQUISITION_DATA,
                     location := .ARCHIVE_STORE },
                   { acquisitionId := 1, artifactType := .ACQUISITION_DATA,
                     location := .ARCHIVE_STORE }] }
      , .ok { acquisitionId := 1, artifactType := .ACQUISITION_DATA,
              location := .ARCHIVE_STORE }) := rfl

/-- Claim C8 (amended): for a collection at a non-archive tier, copying to its
current tier fails with the duplicate-location error before any transfer or
row creation, leaving the state untouched; when source and destination are
both the archive tier, the same-location check is never reached and a
successful retrieve transfer instead returns an existing archive row. -/
theorem c8_duplicate_location_amended (st : CollectionStore)
    (c : ArtifactCollection) (dest : Repository) (tOk : Bool) :
    (c.location = dest → dest ≠ .ARCHIVE_STORE →
      copy_collection st c dest tOk = (st, .error .duplicateLocation)) ∧
    (c.location = .ARCHIVE_STORE → dest = .ARCHIVE_STORE →
      c ∈ st.collections →
      ∃ row, (copy_collection st c dest true).2 = .ok row) := by
  constructor
  · intro h1 h2
    rcases c with ⟨a, t, l⟩
    simp only at h1
    subst h1
    cases l <;> simp_all [copy_collection]
  · intro h1 h2 hc
    subst h2
    rcases c with ⟨a, t, l⟩
    simp only at h1
    subst h1
    have hfind : ∃ row,
        (st.collections.find? (fun x =>
          x.acquisitionId == a && x.location == Repository.ARCHIVE_STORE &&
            x.artifactType == t)) = some row := by
      rw [← Option.isSome_iff_exists, List.find?_isSome]
      exact ⟨_, hc, by simp⟩
    obtain ⟨row, hrow⟩ := hfind
    refine ⟨row, ?_⟩
    simp [copy_collection, run_transfer, get_artifact_collection_by_key, hrow]

/-- Witness for c8_duplicate_location_amended: a same-tier copy within the hot
tier is rejected as a duplicate location with the state untouched. -/
theorem c8_duplicate_location_amended_witness :
    copy_collection
      { collections := [{ acquisitionId := 1, artifactType := .ACQUISITION_DATA,
                          location := .ACQUISITION_STORE }]
      , files := [{ acquisitionId := 1, artifactType := .ACQUISITION_DATA,
                    location := .ACQUISITION_STORE }] }
      { acquisitionId := 1, artifactType := .ACQUISITION_DATA,
        location := .ACQUISITION_STORE }
      .ACQUISITION_STORE true
    = ({ collections := [{ acquisitionId := 1, artifactType := .ACQUISITION_DATA,
                           location := .ACQUISITION_STORE }]
       , files := [{ acquisitionId := 1, artifactType := .ACQUISITION_DATA,
                     location := .ACQUISITION_STORE }] }
      , .error .duplicateLocation) :=
  (c8_duplicate_location_amended _
    { acquisitionId := 1, artifactType := .ACQUISITION_DATA,
      location := .ACQUISITION_STORE }
    .ACQUISITION_STORE true).1 rfl (by decide)

/-- Claim C10: when the acquisition already holds a collection of a different
artifact type at the destination tier, copy_collection performs the filesystem
transfer first (the destination triple is on the filesystem afterwards), then
create_artifact_collection_copy rejects the insert because its guard checks
only (acquisition, tier), and no destination row is created. -/
theorem c10_duplicate_type_after_transfer (st : CollectionStore)
    (c : ArtifactCollection) (dest : Repository) (other : ArtifactCollection)
    (hne : c.location ≠ dest)
    (hother : other ∈ st.collections)
    (hoa : other.acquisitionId = c.acquisitionId)
    (hol : other.location = dest)
    (hkey : get_artifact_collection_by_key st c.acquisitionId dest
      c.artifactType = none) :
    (copy_collection st c dest true).2 = .error .duplicateCollection ∧
    (copy_collection st c dest true).1.collections = st.collections ∧
    { acquisitionId := c.acquisitionId, artifactType := c.artifactType,
      location := dest } ∈ (copy_collection st c dest true).1.files := by
  have hstep := copy_collection_transfer_ok_ne st c dest hne
  have hget : get_artifact_collection_by_key
      { st with files := dest_row c dest :: st.files }
      c.acquisitionId dest c.artifactType = none := hkey
  have hany : ((st.collections.filter
      (fun a => a.acquisitionId == c.acquisitionId)).any
      (fun a => a.location == dest)) = true := by
    rw [List.any_eq_true]
    refine ⟨other, ?_, by simp [hol]⟩
    rw [List.mem_filter]
    exact ⟨hother, by simp [hoa]⟩
  have hcreate : create_artifact_collection_copy
      { st with files := dest_row c dest :: st.files } c dest
      = ({ st with files := dest_row c dest :: st.files },
         .error .duplicateCollection) := by
    rw [create_artifact_collection_copy]
    simp [hany]
  rw [hstep, hget, hcreate]
  exact ⟨rfl, rfl, by simp [dest_row]⟩

/-- Witness for c10_duplicate_type_after_transfer: an acquisition holding
ACQUISITION_DATA at the hot tier and ANALYSIS_DATA at the analysis tier; the
copy of the hot-tier data to the analysis tier transfers the data, then fails
the row insert. -/
theorem c10_duplicate_type_after_transfer_witness :
    (copy_collection
        { collections :=
            [{ acquisitionId := 1, artifactType := .ACQUISITION_DATA,
               location := .ACQUISITION_STORE },
             { acquisitionId := 1, artifactType := .ANALYSIS_DATA,
               location := .ANALYSIS_STORE }]
        , files :=
            [{ acquisitionId := 1, artifactType := .ACQUISITION_DATA,
               location := .ACQUISITION_STORE },
             { acquisitionId := 1, artifactType := .ANALYSIS_DATA,
               location := .ANALYSIS_STORE }] }
        { acquisitionId := 1, artifactType := .ACQUISITION_DATA,
          location := .ACQUISITION_STORE }
        .ANALYSIS_STORE true).2 = .error .duplicateCollection :=
  (c10_duplicate_type_after_transfer
    { collections :=
        [{ acquisitionId := 1, artifactType := .ACQUISITION_DATA,
           location := .ACQUISITION_STORE },
         { acquisitionId := 1, artifactType := .ANALYSIS_DATA,
           location := .ANALYSIS_STORE }]
    , files :=
        [{ acquisitionId := 1, artifactType := .ACQUISITION_DATA,
           location := .ACQUISITION_STORE },
         { acquisitionId := 1, artifactType := .ANALYSIS_DATA,
           location := .ANALYSIS_STORE }] }
    { acquisitionId := 1, artifactType := .ACQUISITION_DATA,
      location := .ACQUISITION_STORE }
    Repository.ANALYSIS_STORE
    { acquisitionId := 1, artifactType := .ANALYSIS_DATA,
      location := .ANALYSIS_STORE }
    (by decide) (by decide) rfl rfl (by decide)).1


/-- Claim C4, counterexample: moving a collection onto its own tier neither
leaves "source absent, destination present" nor "source present, destination
absent" — the copy fails with the duplicate-location error, and the single row
is both the source row and the destination row, so both sides of the claimed
dichotomy are false. -/
theorem c4_counterexample :
    ¬ ((({ acquisitionId := 1, artifactType := .ACQUISITION_DATA,
            location := .ACQUISITION_STORE } : ArtifactCollection) ∉
          (move_collection
            { collections := [{ acquisitionId := 1, artifactType := .ACQUISITION_DATA,
                                location := .ACQUISITION_STORE }]
            , files := [{ acquisitionId := 1, artifactType := .ACQUISITION_DATA,
                          location := .ACQUISITION_STORE }] }
            { acquisitionId := 1, artifactType := .ACQUISITION_DATA,
              location := .ACQUISITION_STORE }
            .ACQUISITION_STORE true).1.collections ∧
        dest_row { acquisitionId := 1, artifactType := .ACQUISITION_DATA,
                   location := .ACQUISITION_STORE } .ACQUISITION_STORE ∈
          (move_collection
            { collections := [{ acquisitionId := 1, artifactType := .ACQUISITION_DATA,
                                location := .ACQUISITION_STORE }]
            , files := [{ acquisitionId := 1, artifactType := .ACQUISITION_DATA,
                          location := .ACQUISITION_STORE }] }
            { acquisitionId := 1, artifactType := .ACQUISITION_DATA,
              location := .ACQUISITION_STORE }
            .ACQUISITION_STORE true).1.collections) ∨
       (({ acquisitionId := 1, artifactType := .ACQUISITION_DATA,
            location := .ACQUISITION_STORE } : ArtifactCollection) ∈
          (move_collection
            { collections := [{ acquisitionId := 1, artifactType := .ACQUISITION_DATA,
                                location := .ACQUISITION_STORE }]
            , files := [{ acquisitionId := 1, artifactType := .ACQUISITION_DATA,
                          location := .ACQUISITION_STORE }] }
            { acquisitionId := 1, artifactType := .ACQUISITION_DATA,
              location := .ACQUISITION_STORE }
            .ACQUISITION_STORE true).1.collections ∧
        dest_row { acquisitionId := 1, artifactType := .ACQUISITION_DATA,
                   location := .ACQUISITION_STORE } .ACQUISITION_STORE ∉
          (move_collection
            { collections := [{ acquisitionId := 1, artifactType := .ACQUISITION_DATA,
                                location := .ACQUISITION_STORE }]
            , files := [{ acquisitionId := 1, artifactType := .ACQUISITION_DATA,
                          location := .ACQUISITION_STORE }] }
            { acquisitionId := 1, artifactType := .ACQUISITION_DATA,
              location := .ACQUISITION_STORE }
            .ACQUISITION_STORE true).1.collections)) := by
  decide

/-- Claim C4 (amended): for a destination tier different from the collection's
tier and initially holding no row for this (acquisition, artifact type),
move_collection ends in exactly one of two states: on a successful copy the
source row and source data are gone and the destination row is present, and on
a failed copy the source row and source data are fully intact and the
destination row is absent; the source is deleted only strictly after the copy
has returned normally.  When the destination equals the source tier the
claimed dichotomy fails (see the counterexample). -/
theorem c4_move_amended (st : CollectionStore) (c : ArtifactCollection)
    (dest : Repository) (tOk : Bool)
    (hc : c ∈ st.collections) (hf : c ∈ st.files)
    (hne : dest ≠ c.location)
    (hD : get_artifact_collection_by_key st c.acquisitionId dest
      c.artifactType = none) :
    ((∃ nc, (move_collection st c dest tOk).2 = .ok nc) ∨
      (∃ e, (move_collection st c dest tOk).2 = .error e)) ∧
    ((∃ nc, (move_collection st c dest tOk).2 = .ok nc) →
      c ∉ (move_collection st c dest tOk).1.collections ∧
      dest_row c dest ∈ (move_collection st c dest tOk).1.collections ∧
      c ∉ (move_collection st c dest tOk).1.files) ∧
    ((∃ e, (move_collection st c dest tOk).2 = .error e) →
      c ∈ (move_collection st c dest tOk).1.collections ∧
      dest_row c dest ∉ (move_collection st c dest tOk).1.collections ∧
      c ∈ (move_collection st c dest tOk).1.files) := by
  have hDnone : ∀ x ∈ st.collections,
      ¬(x.acquisitionId == c.acquisitionId && x.location == dest &&
        x.artifactType == c.artifactType) = true :=
    List.find?_eq_none.mp hD
  have hdmem : dest_row c dest ∉ st.collections := by
    intro hmem
    exact hDnone _ hmem (by simp [dest_row])
  have hdne : dest_row c dest ≠ c :=
    fun h => hne (congrArg ArtifactCollection.location h)
  cases tOk
  · obtain ⟨e, he⟩ := copy_collection_transfer_failed st c dest
    have hm : move_collection st c dest false = (st, .error e) := by
      rw [move_collection, he]
    rw [hm]
    refine ⟨Or.inr ⟨e, rfl⟩, ?_, fun _ => ⟨hc, hdmem, hf⟩⟩
    rintro ⟨nc, hnc⟩
    simp at hnc
  · have hstep := copy_collection_transfer_ok_ne st c dest (Ne.symm hne)
    have hget1 : get_artifact_collection_by_key
        { st with files := dest_row c dest :: st.files }
        c.acquisitionId dest c.artifactType = none := hD
    rw [hget1] at hstep
    by_cases hcond : (c.location == dest ||
        ((({ st with files := dest_row c dest :: st.files } :
            CollectionStore).collections.filter
          (fun a => a.acquisitionId == c.acquisitionId)).any
          (fun a => a.location == dest))) = true
    · have hcreate : create_artifact_collection_copy
          { st with files := dest_row c dest :: st.files } c dest
          = ({ st with files := dest_row c dest :: st.files },
             .error .duplicateCollection) := by
        rw [create_artifact_collection_copy]
        simp only [hcond, if_pos]
      rw [hcreate] at hstep
      have hm : move_collection st c dest true =
          ({ st with files := dest_row c dest :: st.files },
           .error .duplicateCollection) := by
        rw [move_collection, hstep]
      rw [hm]
      refine ⟨Or.inr ⟨_, rfl⟩, ?_, fun _ => ⟨hc, hdmem, List.mem_cons_of_mem _ hf⟩⟩
      rintro ⟨nc, hnc⟩
      simp at hnc
    · have hcreate : create_artifact_collection_copy
          { st with files := dest_row c dest :: st.files } c dest
          = ({ collections := st.collections ++ [dest_row c dest]
             , files := dest_row c dest :: st.files }, .ok (dest_row c dest)) := by
        rw [create_artifact_collection_copy]
        simp only [hcond, if_neg, Bool.false_eq_true, not_false_eq_true]
        rfl
      rw [hcreate] at hstep
      have hm : move_collection st c dest true =
          (cleanup { collections := st.collections ++ [dest_row c dest]
                   , files := dest_row c dest :: st.files } c,
           .ok (dest_row c dest)) := by
        rw [move_collection, hstep]
      rw [hm]
      refine ⟨Or.inl ⟨_, rfl⟩, fun _ => ⟨?_, ?_, ?_⟩, ?_⟩
      · intro hmem
        rw [cleanup] at hmem
        simp only [List.mem_filter, bne_iff_ne, ne_eq] at hmem
        exact hmem.2 trivial
      · rw [cleanup]
        simp only [List.mem_filter, bne_iff_ne, ne_eq]
        exact ⟨List.mem_append_right _ (List.mem_singleton.mpr rfl), hdne⟩
      · intro hmem
        rw [cleanup] at hmem
        simp only [List.mem_filter, bne_iff_ne, ne_eq] at hmem
        exact hmem.2 trivial
      · rintro ⟨e, he⟩
        simp at he

/-- Witness for c4_move_amended: a successful move of the single hot-tier
collection to the analysis tier deletes the source row and data and leaves the
analysis-tier row present. -/
theorem c4_move_amended_witness :
    ({ acquisitionId := 1, artifactType := .ACQUISITION_DATA,
       location := .ACQUISITION_STORE } : ArtifactCollection) ∉
      (move_collection
        { collections := [{ acquisitionId := 1, artifactType := .ACQUISITION_DATA,
                            location := .ACQUISITION_STORE }]
        , files := [{ acquisitionId := 1, artifactType := .ACQUISITION_DATA,
                      location := .ACQUISITION_STORE }] }
        { acquisitionId := 1, artifactType := .ACQUISITION_DATA,
          location := .ACQUISITION_STORE }
        .ANALYSIS_STORE true).1.collections ∧
    dest_row { acquisitionId := 1, artifactType := .ACQUISITION_DATA,
               location := .ACQUISITION_STORE } .ANALYSIS_STORE ∈
      (move_collection
        { collections := [{ acquisitionId := 1, artifactType := .ACQUISITION_DATA,
                            location := .ACQUISITION_STORE }]
        , files := [{ acquisitionId := 1, artifactType := .ACQUISITION_DATA,
                      location := .ACQUISITION_STORE }] }
        { acquisitionId := 1, artifactType := .ACQUISITION_DATA,
          location := .ACQUISITION_STORE }
        .ANALYSIS_STORE true).1.collections :=
  ((c4_move_amended
      { collections := [{ acquisitionId := 1, artifactType := .ACQUISITION_DATA,
                          location := .ACQUISITION_STORE }]
      , files := [{ acquisitionId := 1, artifactType := .ACQUISITION_DATA,
                    location := .ACQUISITION_STORE }] }
      { acquisitionId := 1, artifactType := .ACQUISITION_DATA,
        location := .ACQUISITION_STORE }
      .ANALYSIS_STORE true
      (by decide) (by decide) (by decide) (by decide)).2.1
    ⟨dest_row { acquisitionId := 1, artifactType := .ACQUISITION_DATA,
                location := .ACQUISITION_STORE } .ANALYSIS_STORE, rfl⟩).imp
    id And.left

/-- Claim C5, counterexample: after a POST_READ(1) spec is submitted on the
evaluation where the completed-read count equals 1, a second evaluation at the
same count submits the very same spec again (now carrying the job from the
first submission): handle_post_read_analyses has no guard against
resubmission. -/
theorem c5_counterexample :
    ({ trigger := .POST_READ, triggerValue := some 1, jobs := [] } :
        SBatchAnalysisSpec) ∈
      handle_analyses
        { analysisPlan := some [{ trigger := .POST_READ, triggerValue := some 1,
                                  jobs := [] }]
        , acquisitionPlan := some { nReads := 2, reads := [.COMPLETED, .PENDING] }
        , collections := [] } ∧
    (step_analyses
        { analysisPlan := some [{ trigger := .POST_READ, triggerValue := some 1,
                                  jobs := [] }]
        , acquisitionPlan := some { nReads := 2, reads := [.COMPLETED, .PENDING] }
        , collections := [] }).acquisitionPlan
      = some { nReads := 2, reads := [.COMPLETED, .PENDING] } ∧
    ({ trigger := .POST_READ, triggerValue := some 1, jobs := [0] } :
        SBatchAnalysisSpec) ∈
      handle_analyses
        (step_analyses
          { analysisPlan := some [{ trigger := .POST_READ, triggerValue := some 1,
                                    jobs := [] }]
          , acquisitionPlan := some { nReads := 2, reads := [.COMPLETED, .PENDING] }
          , collections := [] }) := by
  decide

/-- Claim C5 (amended): a POST_READ(k) spec is submitted on exactly those
evaluations where the count of COMPLETED reads is positive and equals k (exact
match, not larger); nothing prevents it from being submitted again on a later
evaluation while the count still equals k. -/
theorem c5_post_read_amended (a : Acquisition) (specs : List SBatchAnalysisSpec)
    (p : ReadProgress) (s : SBatchAnalysisSpec) (k : Int)
    (hplan : a.analysisPlan = some specs) (hacq : a.acquisitionPlan = some p)
    (hs : s ∈ specs) (ht : s.trigger = .POST_READ)
    (hv : s.triggerValue = some k) :
    s ∈ handle_analyses a ↔ (0 < n_complete p ∧ k = (n_complete p : Int)) := by
  rw [handle_analyses, hplan, List.mem_filter]
  rw [submits]
  simp only [ht, hacq, hv]
  constructor
  · rintro ⟨-, h⟩
    rw [Bool.and_eq_true, decide_eq_true_eq] at h
    obtain ⟨h1, h2⟩ := h
    have h3 : (some k : Option Int) = some ((n_complete p : Int)) :=
      beq_iff_eq.mp h2
    exact ⟨h1, Option.some_injective _ h3⟩
  · rintro ⟨h1, h2⟩
    refine ⟨hs, ?_⟩
    rw [Bool.and_eq_true, decide_eq_true_eq]
    exact ⟨h1, by simp [h2]⟩

/-- Witness for c5_post_read_amended: with one of two reads COMPLETED, the
POST_READ(1) spec is submitted. -/
theorem c5_post_read_amended_witness :
    ({ trigger := .POST_READ, triggerValue := some 1, jobs := [] } :
        SBatchAnalysisSpec) ∈
      handle_analyses
        { analysisPlan := some [{ trigger := .POST_READ, triggerValue := some 1,
                                  jobs := [] }]
        , acquisitionPlan := some { nReads := 2, reads := [.COMPLETED, .PENDING] }
        , collections := [] } :=
  (c5_post_read_amended
    { analysisPlan := some [{ trigger := .POST_READ, triggerValue := some 1,
                              jobs := [] }]
    , acquisitionPlan := some { nReads := 2, reads := [.COMPLETED, .PENDING] }
    , collections := [] }
    [{ trigger := .POST_READ, triggerValue := some 1, jobs := [] }]
    { nReads := 2, reads := [.COMPLETED, .PENDING] }
    { trigger := .POST_READ, triggerValue := some 1, jobs := [] }
    1 rfl rfl (by decide) rfl rfl).mpr ⟨by decide, by decide⟩

/-- Claim C9, counterexample: an acquisition with no artifact collection at
all still has its jobless IMMEDIATE spec submitted — handle_immediate_analyses
never consults the collections. -/
theorem c9_counterexample :
    ({ analysisPlan := some [{ trigger := .IMMEDIATE, triggerValue := none,
                               jobs := [] }]
     , acquisitionPlan := none
     , collections := [] } : Acquisition).collections = [] ∧
    ({ trigger := .IMMEDIATE, triggerValue := none, jobs := [] } :
        SBatchAnalysisSpec) ∈
      handle_analyses
        { analysisPlan := some [{ trigger := .IMMEDIATE, triggerValue := none,
                                  jobs := [] }]
        , acquisitionPlan := none
        , collections := [] } := by
  decide

/-- Claim C9 (amended): an IMMEDIATE spec is submitted exactly when no job is
bound to it, regardless of whether any data collection exists for the
acquisition; a spec already bound to a job is never resubmitted; and for an
acquisition without an acquisition plan only IMMEDIATE specs are submitted. -/
theorem c9_immediate_amended (a : Acquisition) (specs : List SBatchAnalysisSpec)
    (s : SBatchAnalysisSpec)
    (hplan : a.analysisPlan = some specs) (hs : s ∈ specs) :
    (s.trigger = .IMMEDIATE → (s ∈ handle_analyses a ↔ s.jobs = [])) ∧
    (a.acquisitionPlan = none →
      ∀ t ∈ handle_analyses a, t.trigger = .IMMEDIATE) := by
  constructor
  · intro ht
    rw [handle_analyses, hplan, List.mem_filter, submits]
    simp only [ht]
    constructor
    · rintro ⟨-, h⟩
      simpa using h
    · intro h
      exact ⟨hs, by simp [h]⟩
  · intro hnone t htmem
    rw [handle_analyses, hplan, List.mem_filter] at htmem
    obtain ⟨-, hsub⟩ := htmem
    rw [submits] at hsub
    cases h : t.trigger
    · rw [h] at hsub
      simp [hnone] at hsub
    · rw [h] at hsub
      simp [hnone] at hsub
    · rfl

/-- Witness for c9_immediate_amended: the jobless IMMEDIATE spec of an
acquisition without an acquisition plan is submitted. -/
theorem c9_immediate_amended_witness :
    ({ trigger := .IMMEDIATE, triggerValue := none, jobs := [] } :
        SBatchAnalysisSpec) ∈
      handle_analyses
        { analysisPlan := some [{ trigger := .IMMEDIATE, triggerValue := none,
                                  jobs := [] }]
        , acquisitionPlan := none
        , collections := [] } :=
  ((c9_immediate_amended
    { analysisPlan := some [{ trigger := .IMMEDIATE, triggerValue := none,
                              jobs := [] }]
    , acquisitionPlan := none
    , collections := [] }
    [{ trigger := .IMMEDIATE, triggerValue := none, jobs := [] }]
    { trigger := .IMMEDIATE, triggerValue := none, jobs := [] }
    rfl (by decide)).1 rfl).mpr rfl

/-- Claim C6, counterexample: with two PENDING jobs where the first job's
status output is unparseable, the reconciliation tick aborts at the first job;
the second job is never queried and its status is not written back, although
the executor would have reported it RUNNING. -/
theorem c6_counterexample :
    sync_analysis_jobs
      [{ slurmId := 1, status := .PENDING }, { slurmId := 2, status := .PENDING }]
      (fun id => if id == 1 then none else some .RUNNING)
      (fun _ => true)
    = ([{ slurmId := 1, status := .PENDING },
        { slurmId := 2, status := .PENDING }], [], false) := rfl

/-- Claim C6 (amended): a failure of the completion hook affects only that
job (statuses are written back regardless of hook outcomes), but a
status-parse failure aborts the reconciliation tick at the failing job: every
non-terminal job polled before it has its status written back and its
completions ingested, while the failing job and every job after it are left
untouched. -/
theorem c6_sync_amended (pre : List SBatchJob) (jf : SBatchJob)
    (post : List SBatchJob) (statusOf : Nat → Option SlurmJobState)
    (hookOk : Nat → Bool)
    (hpre : ∀ j ∈ pre, is_active_job j.status = true →
      (statusOf j.slurmId).isSome = true)
    (hact : is_active_job jf.status = true)
    (hfail : statusOf jf.slurmId = none) :
    sync_analysis_jobs (pre ++ jf :: post) statusOf hookOk
      = (pre.map (sync_one statusOf) ++ jf :: post,
         ingested_ids pre statusOf hookOk, false) := by
  induction pre with
  | nil =>
    simp [sync_analysis_jobs, hact, hfail, ingested_ids]
  | cons j rest ih =>
    have hrest := ih (fun x hx => hpre x (List.mem_cons_of_mem _ hx))
    by_cases hja : is_active_job j.status = true
    · obtain ⟨s, hs⟩ := Option.isSome_iff_exists.mp
        (hpre j (List.mem_cons_self _ _) hja)
      simp only [List.cons_append, sync_analysis_jobs, hja, if_true, hs,
        List.append_eq]
      rw [hrest]
      by_cases hC : s = SlurmJobState.COMPLETED ∧ hookOk j.slurmId = true <;>
        simp [sync_one, hja, hs, hC, ingested_ids]
    · simp only [List.cons_append, sync_analysis_jobs, hja, if_false,
        Bool.false_eq_true, List.append_eq]
      rw [hrest]
      simp [sync_one, hja, ingested_ids]

/-- Witness for c6_sync_amended: job 3 (polled first) is written COMPLETED and
ingested, then the parse failure on job 1 aborts the tick and job 2 keeps its
stale status. -/
theorem c6_sync_amended_witness :
    sync_analysis_jobs
      [{ slurmId := 3, status := .PENDING }, { slurmId := 1, status := .PENDING },
       { slurmId := 2, status := .RUNNING }]
      (fun id => if id == 3 then some .COMPLETED
                 else if id == 1 then none else some .RUNNING)
      (fun _ => true)
    = ([{ slurmId := 3, status := .COMPLETED },
        { slurmId := 1, status := .PENDING },
        { slurmId := 2, status := .RUNNING }], [3], false) :=
  (c6_sync_amended [{ slurmId := 3, status := .PENDING }]
    { slurmId := 1, status := .PENDING }
    [{ slurmId := 2, status := .RUNNING }]
    (fun id => if id == 3 then some .COMPLETED
               else if id == 1 then none else some .RUNNING)
    (fun _ => true)
    (by decide) (by decide) rfl).trans rfl

/-- pickBetter yields none exactly when the accumulator was empty and the new
row is not a candidate. -/
theorem pickBetter_eq_none (before : Int) (p : ImagingPriority)
    (acc : Option SchedRow) (x : SchedRow) :
    pickBetter before p acc x = none ↔
      acc = none ∧ is_candidate before p x = false := by
  rw [pickBetter.eq_def]
  by_cases hc : is_candidate before p x = true
  · simp only [hc, if_true]
    cases acc with
    | none => simp [hc]
    | some b =>
      by_cases h : x.startAfter < b.startAfter <;> simp [h, hc]
  · have hcf : is_candidate before p x = false := by
      revert hc
      cases is_candidate before p x <;> simp
    simp [hcf]

/-- A some result of pickBetter is the new row (then a candidate) or the
accumulator's row. -/
theorem pickBetter_some_cases (before : Int) (p : ImagingPriority)
    (acc : Option SchedRow) (x c : SchedRow)
    (h : pickBetter before p acc x = some c) :
    (c = x ∧ is_candidate before p x = true) ∨ acc = some c := by
  rw [pickBetter.eq_def] at h
  by_cases hc : is_candidate before p x = true
  · simp only [hc, if_true] at h
    cases acc with
    | none => exact Or.inl ⟨(Option.some_injective _ h).symm, hc⟩
    | some b =>
      by_cases hlt : x.startAfter < b.startAfter
      · simp only [hlt, if_true] at h
        exact Or.inl ⟨(Option.some_injective _ h).symm, hc⟩
      · simp only [hlt, if_false] at h
        exact Or.inr h
  · have hcf : is_candidate before p x = false := by
      revert hc
      cases is_candidate before p x <;> simp
    simp only [hcf, Bool.false_eq_true, if_false] at h
    exact Or.inr h

/-- When the new row is a candidate, pickBetter returns a row no later than
it. -/
theorem pickBetter_cand_bound (before : Int) (p : ImagingPriority)
    (acc : Option SchedRow) (x : SchedRow)
    (hc : is_candidate before p x = true) :
    ∃ c, pickBetter before p acc x = some c ∧ c.startAfter ≤ x.startAfter := by
  rw [pickBetter.eq_def]
  simp only [hc, if_true]
  cases acc with
  | none => exact ⟨x, rfl, le_refl _⟩
  | some b =>
    by_cases hlt : x.startAfter < b.startAfter
    · exact ⟨x, by simp [hlt], le_refl _⟩
    · exact ⟨b, by simp [hlt], not_lt.mp hlt⟩

/-- pickBetter never returns a row later than one already held. -/
theorem pickBetter_acc_bound (before : Int) (p : ImagingPriority)
    (b x : SchedRow) :
    ∃ c, pickBetter before p (some b) x = some c ∧
      c.startAfter ≤ b.startAfter := by
  rw [pickBetter.eq_def]
  by_cases hc : is_candidate before p x = true
  · simp only [hc, if_true]
    by_cases hlt : x.startAfter < b.startAfter
    · exact ⟨x, by simp [hlt], le_of_lt hlt⟩
    · exact ⟨b, by simp [hlt], le_refl _⟩
  · have hcf : is_candidate before p x = false := by
      revert hc
      cases is_candidate before p x <;> simp
    exact ⟨b, by simp [hcf], le_refl _⟩

/-- The fold behind get_next_task yields none exactly when it started empty
and no row of the list is a candidate. -/
theorem foldl_pickBetter_none (before : Int) (p : ImagingPriority)
    (reads : List SchedRow) (acc : Option SchedRow) :
    reads.foldl (pickBetter before p) acc = none ↔
      acc = none ∧ ∀ r ∈ reads, is_candidate before p r = false := by
  induction reads generalizing acc with
  | nil => simp
  | cons x xs ih =>
    rw [List.foldl_cons, ih, pickBetter_eq_none]
    constructor
    · rintro ⟨⟨h1, h2⟩, h3⟩
      refine ⟨h1, ?_⟩
      intro r hr
      rcases List.mem_cons.mp hr with h | h
      · exact h ▸ h2
      · exact h3 r h
    · rintro ⟨h1, h2⟩
      exact ⟨⟨h1, h2 x (List.mem_cons_self _ _)⟩,
             fun r hr => h2 r (List.mem_cons_of_mem _ hr)⟩

/-- The fold behind get_next_task returns a candidate from the list (or the
row it started with) whose start_after is minimal among the candidates and no
later than the starting row's. -/
theorem foldl_pickBetter_some (before : Int) (p : ImagingPriority)
    (reads : List SchedRow) (acc : Option SchedRow) (r : SchedRow)
    (h : reads.foldl (pickBetter before p) acc = some r) :
    ((r ∈ reads ∧ is_candidate before p r = true) ∨ acc = some r) ∧
    (∀ x ∈ reads, is_candidate before p x = true →
      r.startAfter ≤ x.startAfter) ∧
    (∀ b, acc = some b → r.startAfter ≤ b.startAfter) := by
  induction reads generalizing acc with
  | nil =>
    rw [List.foldl_nil] at h
    refine ⟨Or.inr h, by simp, ?_⟩
    intro b hb
    rw [h] at hb
    cases hb
    exact le_refl _
  | cons x xs ih =>
    rw [List.foldl_cons] at h
    obtain ⟨h1, h2, h3⟩ := ih (pickBetter before p acc x) h
    refine ⟨?_, ?_, ?_⟩
    · rcases h1 with ⟨hmem, hcand⟩ | hacc
      · exact Or.inl ⟨List.mem_cons_of_mem _ hmem, hcand⟩
      · rcases pickBetter_some_cases before p acc x r hacc with ⟨heq, hcand⟩ | h
        · exact Or.inl ⟨heq ▸ List.mem_cons_self _ _, heq ▸ hcand⟩
        · exact Or.inr h
    · intro y hy hcy
      rcases List.mem_cons.mp hy with hyx | hyxs
      · subst hyx
        obtain ⟨c, hcp, hcb⟩ := pickBetter_cand_bound before p acc y hcy
        exact le_trans (h3 c hcp) hcb
      · exact h2 y hyxs hcy
    · intro b hb
      subst hb
      obtain ⟨c, hcp, hcb⟩ := pickBetter_acc_bound before p b x
      exact le_trans (h3 c hcp) hcb

/-- get_next_task returns none exactly when no row is a PENDING, co-located
read of the requested priority due before the bound. -/
theorem get_next_task_none_iff (reads : List SchedRow) (before : Int)
    (p : ImagingPriority) :
    get_next_task reads before p = none ↔
      ∀ r ∈ reads, is_candidate before p r = false := by
  rw [get_next_task, foldl_pickBetter_none]
  simp

/-- A read returned by get_next_task is a candidate from the table with
minimal start_after among all candidates. -/
theorem get_next_task_some_spec (reads : List SchedRow) (before : Int)
    (p : ImagingPriority) (r : SchedRow)
    (h : get_next_task reads before p = some r) :
    r ∈ reads ∧ is_candidate before p r = true ∧
      ∀ x ∈ reads, is_candidate before p x = true →
        r.startAfter ≤ x.startAfter := by
  obtain ⟨h1, h2, -⟩ := foldl_pickBetter_some before p reads none r h
  rcases h1 with ⟨hmem, hcand⟩ | hacc
  · exact ⟨hmem, hcand, h2⟩
  · cases hacc

/-- any_platereads_running is true exactly when some row is RUNNING. -/
theorem any_platereads_running_iff (reads : List SchedRow) :
    any_platereads_running reads = true ↔
      ∃ r ∈ reads, r.status = .RUNNING := by
  rw [any_platereads_running, List.any_eq_true]
  simp

/-- A read due now is still due within the slack window. -/
theorem is_candidate_mono (now : Int) (p : ImagingPriority) (r : SchedRow)
    (h : is_candidate now p r = true) :
    is_candidate (now + SLACK) p r = true := by
  rw [is_candidate] at h ⊢
  simp only [Bool.and_eq_true, decide_eq_true_eq] at h ⊢
  exact ⟨⟨⟨h.1.1.1, lt_of_lt_of_le h.1.1.2
    (le_add_of_nonneg_right (by norm_num [SLACK]))⟩, h.1.2⟩, h.2⟩

/-- Claim C2: one scheduler tick first cancels overdue reads and then, on the
resulting table, dispatches at most one read.  If any read is RUNNING, nothing
is dispatched.  Otherwise, if a PENDING, co-located NORMAL read due before now
exists, the one with earliest start_after is dispatched (set to SCHEDULED).
Otherwise, if such a NORMAL read is due within the six-hour slack window,
nothing is dispatched.  Otherwise, the earliest PENDING, co-located LOW read
due before now is dispatched, if any; with no candidate the tick is a no-op
beyond the cancellation. -/
theorem c2_schedule_spec (now : Int) (reads : List SchedRow) :
    ((∃ r ∈ cancel_past_deadline now reads, r.status = .RUNNING) →
      schedule now reads = cancel_past_deadline now reads) ∧
    ((∀ r ∈ cancel_past_deadline now reads, r.status ≠ .RUNNING) →
      (((∃ r ∈ cancel_past_deadline now reads,
           is_candidate now .NORMAL r = true) →
        ∃ r ∈ cancel_past_deadline now reads,
          is_candidate now .NORMAL r = true ∧
          (∀ x ∈ cancel_past_deadline now reads,
            is_candidate now .NORMAL x = true → r.startAfter ≤ x.startAfter) ∧
          schedule now reads =
            submit_plateread_spec (cancel_past_deadline now reads) r) ∧
      ((∀ r ∈ cancel_past_deadline now reads,
          is_candidate now .NORMAL r = false) →
        (∃ r ∈ cancel_past_deadline now reads,
          is_candidate (now + SLACK) .NORMAL r = true) →
        schedule now reads = cancel_past_deadline now reads) ∧
      ((∀ r ∈ cancel_past_deadline now reads,
          is_candidate (now + SLACK) .NORMAL r = false) →
        (((∃ r ∈ cancel_past_deadline now reads,
             is_candidate now .LOW r = true) →
          ∃ r ∈ cancel_past_deadline now reads,
            is_candidate now .LOW r = true ∧
            (∀ x ∈ cancel_past_deadline now reads,
              is_candidate now .LOW x = true → r.startAfter ≤ x.startAfter) ∧
            schedule now reads =
              submit_plateread_spec (cancel_past_deadline now reads) r) ∧
        ((∀ r ∈ cancel_past_deadline now reads,
            is_candidate now .LOW r = false) →
          schedule now reads = cancel_past_deadline now reads))))) := by
  by_cases hrun : any_platereads_running (cancel_past_deadline now reads) = true
  · have hsched : schedule now reads = cancel_past_deadline now reads := by
      simp only [schedule]
      rw [if_pos hrun]
    refine ⟨fun _ => hsched, ?_⟩
    intro hno
    obtain ⟨r, hr, hst⟩ := (any_platereads_running_iff _).mp hrun
    exact absurd hst (hno r hr)
  · have hnotrun : (∃ r ∈ cancel_past_deadline now reads,
        r.status = .RUNNING) → False := fun hex =>
      hrun ((any_platereads_running_iff _).mpr hex)
    cases hN : get_next_task (cancel_past_deadline now reads) now .NORMAL with
    | some r =>
      have hsched : schedule now reads =
          submit_plateread_spec (cancel_past_deadline now reads) r := by
        simp only [schedule]
        rw [if_neg hrun, hN]
      obtain ⟨hmem, hcand, hmin⟩ := get_next_task_some_spec _ _ _ _ hN
      refine ⟨fun hex => absurd hex hnotrun, fun _ => ⟨?_, ?_, ?_⟩⟩
      · exact fun _ => ⟨r, hmem, hcand, hmin, hsched⟩
      · intro hall _
        exact absurd hcand (by simp [hall r hmem])
      · intro hall
        exact absurd (is_candidate_mono now .NORMAL r hcand)
          (by simp [hall r hmem])
    | none =>
      have hallN := (get_next_task_none_iff _ _ _).mp hN
      cases hF : get_next_task (cancel_past_deadline now reads)
          (now + SLACK) .NORMAL with
      | some rf =>
        have hsched : schedule now reads = cancel_past_deadline now reads := by
          simp only [schedule]
          rw [if_neg hrun, hN, hF]
        obtain ⟨hfmem, hfcand, -⟩ := get_next_task_some_spec _ _ _ _ hF
        refine ⟨fun hex => absurd hex hnotrun, fun _ => ⟨?_, ?_, ?_⟩⟩
        · rintro ⟨x, hx, hcx⟩
          exact absurd hcx (by simp [hallN x hx])
        · exact fun _ _ => hsched
        · intro hall
          exact absurd hfcand (by simp [hall rf hfmem])
      | none =>
        have hallF := (get_next_task_none_iff _ _ _).mp hF
        cases hL : get_next_task (cancel_past_deadline now reads) now .LOW with
        | some r =>
          have hsched : schedule now reads =
              submit_plateread_spec (cancel_past_deadline now reads) r := by
            simp only [schedule]
            rw [if_neg hrun, hN, hF, hL]
          obtain ⟨hmem, hcand, hmin⟩ := get_next_task_some_spec _ _ _ _ hL
          refine ⟨fun hex => absurd hex hnotrun, fun _ => ⟨?_, ?_, ?_⟩⟩
          · rintro ⟨x, hx, hcx⟩
            exact absurd hcx (by simp [hallN x hx])
          · rintro - ⟨x, hx, hcx⟩
            exact absurd hcx (by simp [hallF x hx])
          · intro _
            refine ⟨fun _ => ⟨r, hmem, hcand, hmin, hsched⟩, ?_⟩
            intro hall
            exact absurd hcand (by simp [hall r hmem])
        | none =>
          have hallL := (get_next_task_none_iff _ _ _).mp hL
          have hsched : schedule now reads = cancel_past_deadline now reads := by
            simp only [schedule]
            rw [if_neg hrun, hN, hF, hL]
          refine ⟨fun hex => absurd hex hnotrun, fun _ => ⟨?_, ?_, ?_⟩⟩
          · rintro ⟨x, hx, hcx⟩
            exact absurd hcx (by simp [hallN x hx])
          · rintro - ⟨x, hx, hcx⟩
            exact absurd hcx (by simp [hallF x hx])
          · exact fun _ => ⟨fun hex => absurd hex (by
              rintro ⟨x, hx, hcx⟩
              exact absurd hcx (by simp [hallL x hx])), fun _ => hsched⟩

/-- Witness for c2_schedule_spec: with a RUNNING read present after
cancellation, the tick dispatches nothing. -/
theorem c2_schedule_spec_witness :
    schedule 0
      [{ status := .RUNNING, startAfter := -10, deadline := none,
         priority := .NORMAL, storageLocation := .CQ1, plateLocation := .CQ1 },
       { status := .PENDING, startAfter := -10, deadline := none,
         priority := .NORMAL, storageLocation := .CQ1, plateLocation := .CQ1 }]
    = cancel_past_deadline 0
      [{ status := .RUNNING, startAfter := -10, deadline := none,
         priority := .NORMAL, storageLocation := .CQ1, plateLocation := .CQ1 },
       { status := .PENDING, startAfter := -10, deadline := none,
         priority := .NORMAL, storageLocation := .CQ1, plateLocation := .CQ1 }] :=
  (c2_schedule_spec 0
    [{ status := .RUNNING, startAfter := -10, deadline := none,
       priority := .NORMAL, storageLocation := .CQ1, plateLocation := .CQ1 },
     { status := .PENDING, startAfter := -10, deadline := none,
       priority := .NORMAL, storageLocation := .CQ1, plateLocation := .CQ1 }]).1
    (by decide)
